import Mathlib

/-!
Verification of the cost-monitor script `fetch_all_regions_resources.py`.

The script queries the cloud inventory and billing APIs, pro-rates hourly
prices against the current billing month, and writes one flat CSV report.
We embed its pure logic shallowly:

* decimal amounts are rationals (`ℚ`); `round(x, 4)` becomes `round4`,
  rounding `x * 10000` to the nearest integer (tie behaviour is irrelevant
  to every statement below, none of which sits on a tie);
* the external providers are explicit parameters: the inventory provider is
  a function from region name to the reservation/instance listing, the
  billing provider is an `Except` value (an exception raised inside the
  `try` block is the `error` case, a well-formed response the `ok` case);
* the imperative accumulation loops (`for … append/extend`) are embedded as
  left folds over the provider-returned lists, preserving order.
-/

namespace CostMonitor

/-- `round(x, 4)` from the source: round to 4 decimal places. -/
def round4 (x : ℚ) : ℚ := ((round (x * 10000) : ℤ) : ℚ) / 10000

/-- Line 25 of the source: `remaining_days = max(days_in_month - current_date.day, 0)`.
Python integers are modelled as `ℤ` so that the subtraction may go negative
before the `max` floors it. -/
def remaining_days (days_in_month day : ℤ) : ℤ := max (days_in_month - day) 0

/-- Line 86: `price_per_hour = 0.0116 if instance_type == "t2.micro" else 0.1216`. -/
def price_per_hour (instance_type : String) : ℚ :=
  if instance_type = "t2.micro" then 0.0116 else 0.1216

/-- Line 89: `accrued_cost = round(price_per_hour * (current_date.day * 24), 4)
if state == "running" else 0`. -/
def accrued_cost (price : ℚ) (day : ℕ) (state : String) : ℚ :=
  if state = "running" then round4 (price * ((day : ℚ) * 24)) else 0

/-- Line 90: `predicted_cost = round(price_per_hour * days_in_month * 24, 4)`. -/
def predicted_cost (price : ℚ) (days_in_month : ℕ) : ℚ :=
  round4 (price * (days_in_month : ℚ) * 24)

/-- One EC2 instance as returned by the inventory provider:
`InstanceId`, `InstanceType` and `State.Name` are the three fields the
script extracts (lines 81–83). -/
structure Ec2Instance where
  instanceId : String
  instanceType : String
  state : String
deriving DecidableEq, Repr

/-- A reservation is the provider-returned list of its instances. -/
abbrev Reservation := List Ec2Instance

/-- One CSV cell: the script mixes strings and numbers in its rows. -/
inductive Cell where
  | str : String → Cell
  | num : ℚ → Cell
deriving DecidableEq, Repr

/-- A report row is the 8-element list the script appends (lines 98–107). -/
abbrev Row := List Cell

/-- The row built for one instance (lines 86–107): service tag, region, id,
type, state, hourly price, accrued cost, predicted cost. -/
def instanceRow (region : String) (day days_in_month : ℕ) (inst : Ec2Instance) : Row :=
  [Cell.str "EC2",
   Cell.str region,
   Cell.str inst.instanceId,
   Cell.str inst.instanceType,
   Cell.str inst.state,
   Cell.num (price_per_hour inst.instanceType),
   Cell.num (accrued_cost (price_per_hour inst.instanceType) day inst.state),
   Cell.num (predicted_cost (price_per_hour inst.instanceType) days_in_month)]

/-- `get_ec2_instances` (lines 64–108): the nested
`for reservation … for instance … ec2_data.append(…)` loops, embedded as
nested left folds that append each instance's row in listing order. -/
def get_ec2_instances (region : String) (reservations : List Reservation)
    (day days_in_month : ℕ) : List Row :=
  reservations.foldl
    (fun acc res =>
      res.foldl (fun acc2 inst => acc2 ++ [instanceRow region day days_in_month inst]) acc)
    []

/-- The ways the billing call of `get_service_cost` can fail; all of them
raise inside the `try` block and are caught by `except Exception`. -/
inductive ProviderError where
  | network
  | auth
  | malformedResponse
  | missingResultRow
deriving DecidableEq, Repr

/-- `get_service_cost` (lines 31–62): on a well-formed provider response the
extracted amount is returned rounded to 4 decimals (line 59); any exception
is caught and `0.0` returned (lines 60–62), so the function is total — no
error escapes its boundary. -/
def get_service_cost (providerResponse : Except ProviderError ℚ) : ℚ :=
  match providerResponse with
  | .ok amount => round4 amount
  | .error _ => 0

/-- The header row written first by `write_to_csv` (lines 126–135). -/
def csvHeader : Row :=
  [Cell.str "Service",
   Cell.str "Region",
   Cell.str "Resource ID",
   Cell.str "Type",
   Cell.str "State",
   Cell.str "Price Per Hour",
   Cell.str "Accrued Cost",
   Cell.str "Predicted Cost"]

/-- `write_to_csv` (lines 118–137): header row first, then every data row in
order. The file is opened in mode "w", so the result is exactly this list of
rows — nothing pre-existing is kept. -/
def write_to_csv (data : List Row) : List Row :=
  csvHeader :: data

/-- The aggregate S3 row appended by `main` (lines 154–163). -/
def s3Row (s3_cost : ℚ) : Row :=
  [Cell.str "S3",
   Cell.str "All Regions",
   Cell.str "N/A",
   Cell.str "Active",
   Cell.str "Active",
   Cell.num 0,
   Cell.num s3_cost,
   Cell.num s3_cost]

/-- `main` (lines 139–166): extend `all_data` with each region's rows in
region-enumeration order, append the single aggregate S3 row, write the CSV. -/
def main (all_regions : List String) (inventory : String → List Reservation)
    (billing : Except ProviderError ℚ) (day days_in_month : ℕ) : List Row :=
  let all_data := all_regions.foldl
    (fun acc region => acc ++ get_ec2_instances region (inventory region) day days_in_month)
    []
  let s3_cost := get_service_cost billing
  write_to_csv (all_data ++ [s3Row s3_cost])

/-! ### Helper lemmas -/

/-- A fold that appends `f x` for each element is the flat map, shifted by
the accumulator. -/
theorem foldl_append_eq_flatMap {α β : Type} (f : α → List β) :
    ∀ (l : List α) (acc : List β),
      l.foldl (fun a x => a ++ f x) acc = acc ++ l.flatMap f
  | [], acc => by simp
  | x :: xs, acc => by
    simp [List.foldl_cons, foldl_append_eq_flatMap f xs (acc ++ f x), List.append_assoc]

/-- A fold that appends the singleton `[f x]` for each element is the map,
shifted by the accumulator. -/
theorem foldl_append_singleton_eq_map {α β : Type} (f : α → β) :
    ∀ (l : List α) (acc : List β),
      l.foldl (fun a x => a ++ [f x]) acc = acc ++ l.map f
  | [], acc => by simp
  | x :: xs, acc => by
    simp [List.foldl_cons, foldl_append_singleton_eq_map f xs (acc ++ [f x]),
      List.append_assoc]

/-- The nested append-fold over a list of lists flattens the inner lists in
listing order, mapping each element. -/
theorem foldl_nested_eq_flatMap {α β : Type} (f : α → β) :
    ∀ (l : List (List α)) (acc : List β),
      l.foldl (fun acc res => res.foldl (fun a x => a ++ [f x]) acc) acc =
        acc ++ l.flatMap (List.map f)
  | [], acc => by simp
  | x :: xs, acc => by
    simp only [List.foldl_cons, List.flatMap_cons]
    rw [foldl_append_singleton_eq_map f x acc,
      foldl_nested_eq_flatMap f xs (acc ++ x.map f), List.append_assoc]

/-- The nested fold of `get_ec2_instances` flattens reservations in listing
order, mapping each instance to its row. -/
theorem get_ec2_instances_eq_flatMap (region : String) (reservations : List Reservation)
    (day days_in_month : ℕ) :
    get_ec2_instances region reservations day days_in_month =
      reservations.flatMap (fun res => res.map (instanceRow region day days_in_month)) := by
  unfold get_ec2_instances
  have h := foldl_nested_eq_flatMap (instanceRow region day days_in_month) reservations []
  simpa using h

/-- The full report produced by `main`, in closed form. -/
theorem main_eq (all_regions : List String) (inventory : String → List Reservation)
    (billing : Except ProviderError ℚ) (day days_in_month : ℕ) :
    main all_regions inventory billing day days_in_month =
      csvHeader ::
        (all_regions.flatMap (fun region =>
            (inventory region).flatMap
              (fun res => res.map (instanceRow region day days_in_month)))
          ++ [s3Row (get_service_cost billing)]) := by
  unfold main write_to_csv
  dsimp only
  have h := foldl_append_eq_flatMap
    (fun region => get_ec2_instances region (inventory region) day days_in_month) all_regions []
  rw [List.nil_append] at h
  rw [h]
  simp only [get_ec2_instances_eq_flatMap]

/-- `round4` is monotone: rounding to 4 decimals preserves `≤`. -/
theorem round4_mono {x y : ℚ} (h : x ≤ y) : round4 x ≤ round4 y := by
  unfold round4
  have hz : round (x * 10000) ≤ round (y * 10000) := by
    rw [round_eq, round_eq]
    exact Int.floor_le_floor (by linarith)
  have : ((round (x * 10000) : ℤ) : ℚ) ≤ ((round (y * 10000) : ℤ) : ℚ) := by
    exact_mod_cast hz
  linarith

/-- `round4 0 = 0`. -/
theorem round4_zero : round4 0 = 0 := by
  unfold round4
  norm_num

/-- A quantity that is already an exact multiple of `1/10000` is unchanged
by rounding to 4 decimal places. -/
theorem round4_int_div (n : ℤ) : round4 ((n : ℚ) / 10000) = (n : ℚ) / 10000 := by
  unfold round4
  have h : ((n : ℚ) / 10000) * 10000 = (n : ℚ) := by field_simp
  rw [h, round_intCast]

/-! ### Claims -/

/-- C1: for every resource, if its state is "running" then
`accrued_cost = round(hourly_price * current_day_of_month * 24, 4)`; for any
other state `accrued_cost = 0`, regardless of the hourly price. -/
theorem C1_accrued_cost (price : ℚ) (day : ℕ) (state : String) :
    (state = "running" → accrued_cost price day state = round4 (price * (day : ℚ) * 24)) ∧
    (state ≠ "running" → accrued_cost price day state = 0) := by
  constructor
  · intro h
    unfold accrued_cost
    rw [if_pos h]
    exact congrArg round4 (by ring)
  · intro h
    unfold accrued_cost
    rw [if_neg h]

/-- Witness for C1 at a concrete running and a concrete stopped instance. -/
theorem C1_accrued_cost_witness :
    accrued_cost 0.0116 10 "running" = round4 (0.0116 * ((10 : ℕ) : ℚ) * 24) ∧
    accrued_cost 0.0116 10 "stopped" = 0 :=
  ⟨(C1_accrued_cost 0.0116 10 "running").1 rfl,
   (C1_accrued_cost 0.0116 10 "stopped").2 (by decide)⟩

/-- C2: for every resource, `predicted_cost = round(hourly_price *
days_in_month * 24, 4)` regardless of the resource's state (the row's eighth
column does not depend on `st` or `day`), and the computation is a pure
function of its inputs. -/
theorem C2_predicted_cost (region : String) (day days_in_month : ℕ)
    (id ty st : String) (price : ℚ) :
    predicted_cost price days_in_month = round4 (price * (days_in_month : ℚ) * 24) ∧
    (instanceRow region day days_in_month ⟨id, ty, st⟩)[7]? =
      some (Cell.num (round4 (price_per_hour ty * (days_in_month : ℚ) * 24))) :=
  ⟨rfl, rfl⟩

/-- C3: `remaining_days = days_in_month - current_date.day` when the day is
within the month, `0` when it exceeds it, and never negative. -/
theorem C3_remaining_days (days_in_month day : ℤ) :
    (day ≤ days_in_month → remaining_days days_in_month day = days_in_month - day) ∧
    (day > days_in_month → remaining_days days_in_month day = 0) ∧
    0 ≤ remaining_days days_in_month day := by
  unfold remaining_days
  refine ⟨fun h => ?_, fun h => ?_, le_max_right _ _⟩
  · omega
  · omega

/-- Witness for C3: a normal window (day 10 of 30) and a clock-skew window
(day 31 of a 28-day month). -/
theorem C3_remaining_days_witness :
    remaining_days 30 10 = 30 - 10 ∧ remaining_days 28 31 = 0 ∧
    0 ≤ remaining_days 30 10 :=
  ⟨(C3_remaining_days 30 10).1 (by decide),
   (C3_remaining_days 28 31).2.1 (by decide),
   (C3_remaining_days 30 10).2.2⟩

/-- C4: `get_service_cost` returns exactly `0.0` on any provider failure
(the function is total, so no exception escapes its boundary), and the
provider's amount rounded to 4 decimals on success. -/
theorem C4_get_service_cost (r : Except ProviderError ℚ) :
    (∀ e, r = Except.error e → get_service_cost r = 0) ∧
    (∀ amount, r = Except.ok amount → get_service_cost r = round4 amount) := by
  constructor
  · rintro e rfl
    rfl
  · rintro a rfl
    rfl

/-- Witness for C4 at a concrete failure and a concrete success. -/
theorem C4_get_service_cost_witness :
    get_service_cost (Except.error ProviderError.network) = 0 ∧
    get_service_cost (Except.ok 12.3456) = round4 12.3456 :=
  ⟨(C4_get_service_cost (Except.error ProviderError.network)).1 ProviderError.network rfl,
   (C4_get_service_cost (Except.ok 12.3456)).2 12.3456 rfl⟩

/-- C5: the two-tier price table (0.0116 for "t2.micro", 0.1216 for every
other type), and the scenario values: a running discounted instance on day
10 of a 30-day month accrues 2.784 and is predicted 8.352. -/
theorem C5_price_table :
    price_per_hour "t2.micro" = 0.0116 ∧
    (∀ ty, ty ≠ "t2.micro" → price_per_hour ty = 0.1216) ∧
    accrued_cost (price_per_hour "t2.micro") 10 "running" = 2.784 ∧
    predicted_cost (price_per_hour "t2.micro") 30 = 8.352 := by
  refine ⟨rfl, fun ty h => ?_, ?_, ?_⟩
  · unfold price_per_hour
    rw [if_neg h]
  · unfold accrued_cost
    rw [if_pos rfl]
    have e1 : price_per_hour "t2.micro" * (((10 : ℕ) : ℚ) * 24) =
        ((27840 : ℤ) : ℚ) / 10000 := by
      norm_num [price_per_hour]
    rw [e1, round4_int_div]
    norm_num
  · unfold predicted_cost
    have e2 : price_per_hour "t2.micro" * ((30 : ℕ) : ℚ) * 24 =
        ((83520 : ℤ) : ℚ) / 10000 := by
      norm_num [price_per_hour]
    rw [e2, round4_int_div]
    norm_num

/-- Witness for C5: the fallback rate at a concrete non-discounted type. -/
theorem C5_price_table_witness : price_per_hour "m5.large" = 0.1216 :=
  C5_price_table.2.1 "m5.large" (by decide)

/-- C6: the assembled report has exactly `count(resource records) +
count(aggregate records)` data rows, the header is the first row, and the
column order is the fixed eight-column header. -/
theorem C6_report_shape (resource_records aggregate_records : List Row) :
    (write_to_csv (resource_records ++ aggregate_records)).tail.length =
      resource_records.length + aggregate_records.length ∧
    (write_to_csv (resource_records ++ aggregate_records)).head? = some csvHeader ∧
    csvHeader = [Cell.str "Service", Cell.str "Region", Cell.str "Resource ID",
      Cell.str "Type", Cell.str "State", Cell.str "Price Per Hour",
      Cell.str "Accrued Cost", Cell.str "Predicted Cost"] := by
  refine ⟨?_, rfl, rfl⟩
  simp [write_to_csv]

/-- C7: the report's data rows are exactly the resource rows — regions in
enumeration order, reservations and instances within each region in
provider listing order — followed by the aggregate row; no reordering,
sorting or deduplication. -/
theorem C7_report_order (all_regions : List String) (inventory : String → List Reservation)
    (billing : Except ProviderError ℚ) (day days_in_month : ℕ) :
    main all_regions inventory billing day days_in_month =
      csvHeader ::
        (all_regions.flatMap (fun region =>
            (inventory region).flatMap
              (fun res => res.map (instanceRow region day days_in_month)))
          ++ [s3Row (get_service_cost billing)]) :=
  main_eq all_regions inventory billing day days_in_month

/-- C8: when the billing provider fails, the run still completes (the report
is written, header first) and its aggregate row has accrued = predicted =
0.0, hourly price 0, resource id "N/A" and region "All Regions". -/
theorem C8_billing_failure (all_regions : List String) (inventory : String → List Reservation)
    (e : ProviderError) (day days_in_month : ℕ) :
    (main all_regions inventory (Except.error e) day days_in_month).getLast? =
      some [Cell.str "S3", Cell.str "All Regions", Cell.str "N/A", Cell.str "Active",
        Cell.str "Active", Cell.num 0, Cell.num 0, Cell.num 0] ∧
    (main all_regions inventory (Except.error e) day days_in_month).head? = some csvHeader := by
  rw [main_eq]
  refine ⟨?_, rfl⟩
  rw [← List.cons_append, List.getLast?_concat]
  rfl

/-- C9: with zero regions and a successful billing lookup of 12.3456, the
report is the header plus exactly one data row, the aggregate row, whose
predicted cost is 12.3456. -/
theorem C9_zero_regions (inventory : String → List Reservation) (day days_in_month : ℕ) :
    main [] inventory (Except.ok 12.3456) day days_in_month =
      [csvHeader,
       [Cell.str "S3", Cell.str "All Regions", Cell.str "N/A", Cell.str "Active",
        Cell.str "Active", Cell.num 0, Cell.num 12.3456, Cell.num 12.3456]] := by
  rw [main_eq]
  have h4 : get_service_cost (Except.ok 12.3456) = 12.3456 := by
    show round4 12.3456 = 12.3456
    have e : (12.3456 : ℚ) = ((123456 : ℤ) : ℚ) / 10000 := by norm_num
    rw [e, round4_int_div]
  rw [h4]
  rfl

/-- C10: with a nonnegative hourly price and `day ≤ days_in_month`, the
accrued cost never exceeds the predicted cost, whatever the state. -/
theorem C10_accrued_le_predicted (price : ℚ) (day days_in_month : ℕ) (state : String)
    (hp : 0 ≤ price) (hd : day ≤ days_in_month) :
    accrued_cost price day state ≤ predicted_cost price days_in_month := by
  unfold accrued_cost predicted_cost
  have hcast : ((day : ℚ)) ≤ (days_in_month : ℚ) := by exact_mod_cast hd
  by_cases h : state = "running"
  · rw [if_pos h]
    apply round4_mono
    nlinarith
  · rw [if_neg h]
    rw [← round4_zero]
    apply round4_mono
    have h0 : (0 : ℚ) ≤ (days_in_month : ℚ) := Nat.cast_nonneg _
    nlinarith

/-- Witness for C10 at the discounted rate, day 10 of a 30-day month. -/
theorem C10_accrued_le_predicted_witness :
    accrued_cost 0.0116 10 "running" ≤ predicted_cost 0.0116 30 :=
  C10_accrued_le_predicted 0.0116 10 30 "running" (by norm_num) (by norm_num)

end CostMonitor
